import Mathlib

/-!
# SimpleTimeout: a shallow embedding of `SimpleTimeoutTemplate`

The C++ class template `SimpleTimeoutTemplate<T_TICKS>` (file
`src/SimpleTimeoutTemplate.h`) stores two fields,

* `start    : unsigned long`, the tick value captured at construction / restart;
* `duration : long`, whose sign and value encode armed / forever / disabled.

Both types have the same bit width `w`, which is a parameter of the embedding.
`unsigned long` values are natural numbers below `2 ^ w`, with arithmetic taken
modulo `2 ^ w`; `long` values are integers in `[-2 ^ (w-1), 2 ^ (w-1))`.
The tick source `T_TICKS()` is an external function, so every operation that
calls it takes the value it returned as the argument `now`.
-/

namespace SimpleTimeout

/-- The two private fields of the class. -/
structure SimpleTimeoutTemplate where
  start : Nat
  duration : Int
  deriving DecidableEq, Repr

/-- The largest `long`: `LONG_MAX = 2 ^ (w-1) - 1`. -/
def LONG_MAX (w : Nat) : Int := 2 ^ (w - 1) - 1

/-- The smallest `long`: `LONG_MIN = -2 ^ (w-1)`. -/
def LONG_MIN (w : Nat) : Int := -(2 ^ (w - 1))

/-- The source has `static constexpr long FOREVER = LONG_MAX;`. -/
def FOREVER (w : Nat) : Int := LONG_MAX w

/-- Conversion of a `long` to `unsigned long`, as C++ performs it on the right
operand of `start + duration`: reduction modulo `2 ^ w`. -/
def toUnsigned (w : Nat) (d : Int) : Nat := (d % (2 ^ w : Int)).toNat

/-- A value of type `unsigned long`. -/
def IsULong (w : Nat) (n : Nat) : Prop := n < 2 ^ w

/-- A value of type `long`. -/
def IsLong (w : Nat) (d : Int) : Prop := LONG_MIN w ≤ d ∧ d ≤ LONG_MAX w

instance (w n : Nat) : Decidable (IsULong w n) := by unfold IsULong; infer_instance

instance (w : Nat) (d : Int) : Decidable (IsLong w d) := by unfold IsLong; infer_instance

namespace SimpleTimeoutTemplate

/-- The constructor `SimpleTimeoutTemplate(long durationTicks)`:
`start = T_TICKS(); duration = durationTicks;`. -/
def construct (now : Nat) (durationTicks : Int) : SimpleTimeoutTemplate :=
  { start := now, duration := durationTicks }

/-- The constructor with its default argument `durationTicks = 0`. -/
def constructDefault (now : Nat) : SimpleTimeoutTemplate := construct now 0

/-- The source has `getStart`: `return start;`. -/
def getStart (t : SimpleTimeoutTemplate) : Nat := t.start

/-- The source has `isForever`: `return duration == FOREVER;`. -/
def isForever (w : Nat) (t : SimpleTimeoutTemplate) : Bool := t.duration == FOREVER w

/-- The source has `isDisabled`: `return duration < 0;`. -/
def isDisabled (t : SimpleTimeoutTemplate) : Bool := decide (t.duration < 0)

/-- The source has `getInvertedDuration`: `return -1 - duration;`.  For every
`long` value of `duration` the result is again a `long`, so the subtraction is
the mathematical one. -/
def getInvertedDuration (t : SimpleTimeoutTemplate) : Int := -1 - t.duration

/-- The source has `getEnd`: `start` when disabled or forever, otherwise
`start + duration` in `unsigned long` arithmetic. -/
def getEnd (w : Nat) (t : SimpleTimeoutTemplate) : Nat :=
  if t.isDisabled || t.isForever w then t.start
  else (t.start + toUnsigned w t.duration) % 2 ^ w

/-- The source has `getDuration`: the decoded duration when disabled, otherwise
`duration`. -/
def getDuration (t : SimpleTimeoutTemplate) : Int :=
  if t.isDisabled then t.getInvertedDuration else t.duration

/-- The source has `cancel`: `if (!isDisabled()) duration = getInvertedDuration();`. -/
def cancel (t : SimpleTimeoutTemplate) : SimpleTimeoutTemplate :=
  if !t.isDisabled then { t with duration := t.getInvertedDuration } else t

/-- The source has `restart(long newDurationTicks)`:
`duration = newDurationTicks; start = T_TICKS();`. -/
def restartWith (t : SimpleTimeoutTemplate) (newDurationTicks : Int) (now : Nat) :
    SimpleTimeoutTemplate :=
  { t with duration := newDurationTicks, start := now }

/-- The source has `restart(void)`: `restart(getDuration());`. -/
def restart (t : SimpleTimeoutTemplate) (now : Nat) : SimpleTimeoutTemplate :=
  t.restartWith t.getDuration now

/-- The source has `expired`.  The result pairs the returned `bool` with the
object after the call; `now` is what `T_TICKS()` returns when the body reads it. -/
def expired (w : Nat) (t : SimpleTimeoutTemplate) (now : Nat) : Bool × SimpleTimeoutTemplate :=
  if t.isForever w then (false, t)
  else if t.isDisabled then (true, t)
  else
    let end_ := t.getEnd w
    -- Deal with timeout overflow without a clock overflow
    if decide (end_ < t.start) && decide (now ≥ t.start) then (false, t)
    else
      -- hasExpired = true for clock overflow without a timeout overflow
      let hasExpired := decide (end_ ≥ t.start) && decide (now < t.start)
      -- Both overflowed or neither
      let hasExpired := if !hasExpired then decide (now ≥ end_) else hasExpired
      if hasExpired then (true, t.cancel) else (false, t)

end SimpleTimeoutTemplate

/-- A member-function call made on a timer object between two points of a
program that never restarts it.  `expired` carries the tick value the tick
source returns during the call. -/
inductive Call where
  | cancel
  | expired (now : Nat)
  | getStart
  | getEnd
  | getDuration
  | isForever
  | isDisabled
  deriving DecidableEq, Repr

/-- The object after one call; only `cancel` and `expired` are non-`const`. -/
def Call.after (w : Nat) (t : SimpleTimeoutTemplate) : Call → SimpleTimeoutTemplate
  | .cancel => t.cancel
  | .expired now => (t.expired w now).2
  | _ => t

/-- What a call to `expired` returned, `none` for the other calls. -/
def Call.answer (w : Nat) (t : SimpleTimeoutTemplate) : Call → Option Bool
  | .expired now => some (t.expired w now).1
  | _ => none

/-- Run a sequence of calls in order: the answers of the `expired` calls among
them, and the final object. -/
def runCalls (w : Nat) : SimpleTimeoutTemplate → List Call → List Bool × SimpleTimeoutTemplate
  | t, [] => ([], t)
  | t, c :: cs =>
    let r := runCalls w (c.after w t) cs
    (match c.answer w t with
      | some b => b :: r.1
      | none => r.1, r.2)

/-- Poll `expired` once for each tick value of the list, in order, and collect
the answers. -/
def pollAll (w : Nat) : SimpleTimeoutTemplate → List Nat → List Bool
  | _, [] => []
  | t, now :: rest => (t.expired w now).1 :: pollAll w (t.expired w now).2 rest

/-- The value the tick source shows at true (unwrapped) time `time`. -/
def tickAt (w : Nat) (time : Nat) : Nat := time % 2 ^ w

/-! ## Arithmetic of the two integer types -/

theorem forever_nonneg (w : Nat) : 0 ≤ FOREVER w := by
  unfold FOREVER LONG_MAX
  have : (0 : Int) < 2 ^ (w - 1) := by positivity
  omega

theorem forever_lt_pow (w : Nat) : FOREVER w < 2 ^ w := by
  unfold FOREVER LONG_MAX
  have h : (2 : Int) ^ (w - 1) ≤ 2 ^ w :=
    pow_le_pow_right₀ (by norm_num) (Nat.sub_le w 1)
  omega

theorem toUnsigned_of_nonneg (w : Nat) (n : Nat) (h : n < 2 ^ w) :
    toUnsigned w (n : Int) = n := by
  unfold toUnsigned
  have : ((n : Int) % (2 ^ w : Int)) = ((n % 2 ^ w : Nat) : Int) := by push_cast; rfl
  rw [this, Nat.mod_eq_of_lt h]
  simp

theorem add_mod_cases (m a b : Nat) (ha : a < m) (hb : b < m) :
    (a + b < m ∧ (a + b) % m = a + b) ∨ (m ≤ a + b ∧ (a + b) % m = a + b - m) := by
  rcases Nat.lt_or_ge (a + b) m with h | h
  · exact Or.inl ⟨h, Nat.mod_eq_of_lt h⟩
  · refine Or.inr ⟨h, ?_⟩
    rw [Nat.mod_eq_sub_mod h, Nat.mod_eq_of_lt (by omega)]

/-! ## Basic facts about the operations -/

theorem isForever_eq_false_of_neg (w : Nat) (t : SimpleTimeoutTemplate) (h : t.duration < 0) :
    t.isForever w = false := by
  have := forever_nonneg w
  simp only [SimpleTimeoutTemplate.isForever, beq_eq_false_iff_ne, ne_eq]
  omega

theorem expired_of_disabled (w : Nat) (t : SimpleTimeoutTemplate) (now : Nat)
    (h : t.duration < 0) : t.expired w now = (true, t) := by
  simp [SimpleTimeoutTemplate.expired, isForever_eq_false_of_neg w t h,
    SimpleTimeoutTemplate.isDisabled, h]

theorem expired_of_forever (w : Nat) (t : SimpleTimeoutTemplate) (now : Nat)
    (h : t.duration = FOREVER w) : t.expired w now = (false, t) := by
  simp [SimpleTimeoutTemplate.expired, SimpleTimeoutTemplate.isForever, h]

theorem cancel_of_disabled (t : SimpleTimeoutTemplate) (h : t.duration < 0) : t.cancel = t := by
  simp [SimpleTimeoutTemplate.cancel, SimpleTimeoutTemplate.isDisabled, h]

theorem cancel_of_nonneg (t : SimpleTimeoutTemplate) (h : 0 ≤ t.duration) :
    t.cancel = { start := t.start, duration := -1 - t.duration } := by
  simp [SimpleTimeoutTemplate.cancel, SimpleTimeoutTemplate.isDisabled,
    SimpleTimeoutTemplate.getInvertedDuration, h]

theorem cancel_duration_neg (t : SimpleTimeoutTemplate) : t.cancel.duration < 0 := by
  rcases lt_or_le t.duration 0 with h | h
  · rw [cancel_of_disabled t h]; exact h
  · rw [cancel_of_nonneg t h]; simp only; omega

theorem cancel_start (t : SimpleTimeoutTemplate) : t.cancel.start = t.start := by
  rcases lt_or_le t.duration 0 with h | h
  · rw [cancel_of_disabled t h]
  · rw [cancel_of_nonneg t h]

/-- The object after `expired` is the cancelled object when the answer is
`true` and the untouched object when it is `false`. -/
theorem expired_snd (w : Nat) (t : SimpleTimeoutTemplate) (now : Nat) :
    (t.expired w now).2 = if (t.expired w now).1 then t.cancel else t := by
  unfold SimpleTimeoutTemplate.expired
  by_cases hf : t.isForever w = true
  · simp [hf]
  · by_cases hd : t.isDisabled = true
    · have hneg : t.duration < 0 := by
        simpa [SimpleTimeoutTemplate.isDisabled] using hd
      simp [hf, hd, cancel_of_disabled t hneg]
    · simp only [hf, hd, Bool.false_eq_true, if_false]
      split
      · simp
      · split <;> simp_all
        split <;> simp

/-- The expiry test on an armed timer, with the duration a natural number:
polled `e` ticks after the start, the answer is `true` exactly from `e = n` on. -/
theorem expired_armed (w s n e : Nat) (hs : s < 2 ^ w) (hn : (n : Int) < FOREVER w)
    (he : e < 2 ^ w) :
    (SimpleTimeoutTemplate.expired w { start := s, duration := (n : Int) }
      ((s + e) % 2 ^ w)).1 = decide (n ≤ e) := by
  have hfl := forever_lt_pow w
  have hnw : n < 2 ^ w := by
    have : (n : Int) < 2 ^ w := lt_trans hn hfl
    exact_mod_cast this
  have hne : ((n : Int) == FOREVER w) = false := by
    simp only [beq_eq_false_iff_ne, ne_eq]; omega
  have hnd : decide ((n : Int) < 0) = false := by
    simp
  simp only [SimpleTimeoutTemplate.expired, SimpleTimeoutTemplate.isForever,
    SimpleTimeoutTemplate.isDisabled, SimpleTimeoutTemplate.getEnd, hne, hnd,
    toUnsigned_of_nonneg w n hnw, Bool.false_eq_true, if_false, Bool.or_false]
  clear hne hnd hfl hn
  generalize (2 ^ w : Nat) = m at *
  have hE : ∃ E, (s + n) % m = E ∧ ((s + n < m ∧ E = s + n) ∨ (m ≤ s + n ∧ E + m = s + n)) := by
    rcases add_mod_cases m s n hs hnw with ⟨h1, h2⟩ | ⟨h1, h2⟩
    · exact ⟨_, rfl, Or.inl ⟨h1, h2⟩⟩
    · exact ⟨_, rfl, Or.inr ⟨h1, by omega⟩⟩
  have hN : ∃ N, (s + e) % m = N ∧ ((s + e < m ∧ N = s + e) ∨ (m ≤ s + e ∧ N + m = s + e)) := by
    rcases add_mod_cases m s e hs he with ⟨h1, h2⟩ | ⟨h1, h2⟩
    · exact ⟨_, rfl, Or.inl ⟨h1, h2⟩⟩
    · exact ⟨_, rfl, Or.inr ⟨h1, by omega⟩⟩
  obtain ⟨E, hE1, hE2⟩ := hE
  obtain ⟨N, hN1, hN2⟩ := hN
  rw [hE1, hN1]
  clear hE1 hN1
  simp only [Bool.and_eq_true, decide_eq_true_eq, Bool.not_eq_true', Bool.and_eq_false_imp, ge_iff_le]
  split_ifs <;>
  simp only [decide_eq_true_eq, decide_eq_false_iff_not, Bool.and_eq_true, decide_eq_decide,
    true_iff, false_iff, Bool.true_eq, Bool.false_eq] at * <;>
  omega

/-- The expiry test on an armed timer whose duration is any `long` in
`[0, FOREVER)`. -/
theorem expired_armed_int (w s e : Nat) (d : Int) (hs : IsULong w s) (hd0 : 0 ≤ d)
    (hd : d < FOREVER w) (he : e < 2 ^ w) :
    (SimpleTimeoutTemplate.expired w { start := s, duration := d } ((s + e) % 2 ^ w)).1
      = decide (d ≤ (e : Int)) := by
  obtain ⟨n, rfl⟩ := Int.eq_ofNat_of_zero_le hd0
  rw [expired_armed w s n e hs hd he]
  simp

/-- On a disabled timer every call other than `restart` leaves the object as it
is, and every `expired` among the calls answers `true`. -/
theorem runCalls_of_disabled (w : Nat) (calls : List Call) (t : SimpleTimeoutTemplate)
    (h : t.duration < 0) :
    (runCalls w t calls).2 = t ∧ ∀ b ∈ (runCalls w t calls).1, b = true := by
  induction calls with
  | nil => simp [runCalls]
  | cons c cs ih =>
    have hafter : c.after w t = t := by
      cases c <;> simp [Call.after, cancel_of_disabled t h, expired_of_disabled w t _ h]
    simp only [runCalls, hafter]
    refine ⟨ih.1, ?_⟩
    cases c <;> simp only [Call.answer] <;> try exact ih.2
    intro b hb
    rcases List.mem_cons.mp hb with hb | hb
    · rw [hb, expired_of_disabled w t _ h]
    · exact ih.2 b hb

/-- Polling a disabled timer answers `true` every time. -/
theorem pollAll_of_disabled (w : Nat) (nows : List Nat) (t : SimpleTimeoutTemplate)
    (h : t.duration < 0) : pollAll w t nows = nows.map (fun _ => true) := by
  induction nows with
  | nil => rfl
  | cons now rest ih => simp [pollAll, expired_of_disabled w t now h, ih]

/-- Polling a forever timer answers `false` every time. -/
theorem pollAll_of_forever (w : Nat) (nows : List Nat) (t : SimpleTimeoutTemplate)
    (h : t.duration = FOREVER w) : pollAll w t nows = nows.map (fun _ => false) := by
  induction nows with
  | nil => rfl
  | cons now rest ih => simp [pollAll, expired_of_forever w t now h, ih]

/-! ## The expiry predicate -/

/-- C1. Wraparound-correct expiry: a timer with `start = s` (an `unsigned long`)
and armed duration `0 ≤ d < FOREVER`, polled when the tick source reads
`(s + e) mod 2^w` with `e < 2^w`, has `expired()` return `true` if and only if
`e ≥ d`.  The four orderings (end wrapped or not, clock wrapped or not) are all
covered by the quantification over `s`, `d` and `e`. -/
theorem expired_iff_elapsed (w s e : Nat) (d : Int) (hs : IsULong w s) (hd0 : 0 ≤ d)
    (hd : d < FOREVER w) (he : e < 2 ^ w) :
    (SimpleTimeoutTemplate.expired w { start := s, duration := d } ((s + e) % 2 ^ w)).1 = true
      ↔ d ≤ (e : Int) := by
  rw [expired_armed_int w s e d hs hd0 hd he]
  simp

/-- C1 at a start ten ticks below the 32-bit maximum, duration 50, polled 20
ticks later (after the clock has wrapped, before the wrapped end). -/
theorem expired_iff_elapsed_witness :
    (SimpleTimeoutTemplate.expired 32 { start := 4294967286, duration := 50 }
        ((4294967286 + 20) % 2 ^ 32)).1 = true ↔ (50 : Int) ≤ ((20 : Nat) : Int) :=
  expired_iff_elapsed 32 4294967286 20 50 (by unfold IsULong; norm_num) (by norm_num)
    (by norm_num [FOREVER, LONG_MAX]) (by norm_num)

/-- The end-to-end scenario of the specification: a timer built at tick 100
with duration 50 has `getEnd() = 150`, is not expired at tick 149, is expired
at tick 150, and stays expired when the tick source then reads 0. -/
theorem scenario_start_100_duration_50 :
    (SimpleTimeoutTemplate.construct 100 50).getEnd 32 = 150 ∧
    ((SimpleTimeoutTemplate.construct 100 50).expired 32 149).1 = false ∧
    ((SimpleTimeoutTemplate.construct 100 50).expired 32 150).1 = true ∧
    pollAll 32 (SimpleTimeoutTemplate.construct 100 50) [149, 150, 0] = [false, true, true] := by
  decide

/-- C2. Latching: if a call to `expired()` returns `true`, then after any
sequence of further calls other than `restart` (cancel, getters, `expired` at
arbitrary tick values) every `expired()` among them returns `true`, the object
is still the one the first call left, and one more `expired()` at any tick
value returns `true` as well. -/
theorem expired_latches (w : Nat) (t : SimpleTimeoutTemplate) (now : Nat) (calls : List Call)
    (later : Nat) (h : (t.expired w now).1 = true) :
    (∀ b ∈ (runCalls w (t.expired w now).2 calls).1, b = true) ∧
    (runCalls w (t.expired w now).2 calls).2 = (t.expired w now).2 ∧
    (SimpleTimeoutTemplate.expired w (runCalls w (t.expired w now).2 calls).2 later).1 = true := by
  have hneg : (t.expired w now).2.duration < 0 := by
    rw [expired_snd, h]
    exact cancel_duration_neg t
  obtain ⟨h1, h2⟩ := runCalls_of_disabled w calls _ hneg
  refine ⟨h2, h1, ?_⟩
  rw [h1, expired_of_disabled w _ later hneg]

/-- C2 on the timer started at tick 100 with duration 50: it expires at tick
150 and stays expired through a cancel, a getter and polls at ticks 0 and 149. -/
theorem expired_latches_witness :
    (∀ b ∈ (runCalls 32 (SimpleTimeoutTemplate.expired 32 { start := 100, duration := 50 } 150).2
        [Call.expired 0, Call.cancel, Call.getDuration, Call.expired 149]).1, b = true) ∧
    (runCalls 32 (SimpleTimeoutTemplate.expired 32 { start := 100, duration := 50 } 150).2
        [Call.expired 0, Call.cancel, Call.getDuration, Call.expired 149]).2
      = (SimpleTimeoutTemplate.expired 32 { start := 100, duration := 50 } 150).2 ∧
    (SimpleTimeoutTemplate.expired 32
      (runCalls 32 (SimpleTimeoutTemplate.expired 32 { start := 100, duration := 50 } 150).2
        [Call.expired 0, Call.cancel, Call.getDuration, Call.expired 149]).2 7).1 = true :=
  expired_latches 32 { start := 100, duration := 50 } 150
    [Call.expired 0, Call.cancel, Call.getDuration, Call.expired 149] 7 (by decide)

/-- The tick shown at true time `t` is the start tick plus the elapsed ticks,
modulo `2^w`. -/
theorem tickAt_add_elapsed (w t0 t : Nat) (h : t0 ≤ t) :
    (tickAt w t0 + (t - t0)) % 2 ^ w = tickAt w t := by
  unfold tickAt
  rw [Nat.mod_add_mod]
  congr 1
  omega

/-- One poll of an armed timer constructed at true time `t0`, made at true time
`t` less than `2^w` ticks later. -/
theorem expired_at_time (w t0 t : Nat) (d : Int) (hd0 : 0 ≤ d) (hd : d < FOREVER w)
    (h : t0 ≤ t) (hlt : t - t0 < 2 ^ w) :
    (SimpleTimeoutTemplate.expired w (SimpleTimeoutTemplate.construct (tickAt w t0) d)
      (tickAt w t)).1 = decide (d ≤ ((t - t0 : Nat) : Int)) := by
  have hs : IsULong w (tickAt w t0) := Nat.mod_lt _ (by positivity)
  rw [← tickAt_add_elapsed w t0 t h]
  exact expired_armed_int w (tickAt w t0) (t - t0) d hs hd0 hd hlt

/-- C3, as stated, fails.  With 32-bit ticks, a timer of duration 100 built at
true time 0 and polled at true times 50 and `2^32 + 10` meets every hypothesis
of the claim (armed duration, increasing poll times, consecutive observations
less than `2^32` ticks apart), yet the second poll, `2^32 + 10 ≥ 100` ticks
after construction, sees tick value 10 and answers `false`. -/
theorem one_wrap_between_polls_not_enough :
    (0 : Int) ≤ 100 ∧ (100 : Int) < FOREVER 32 ∧
    List.Chain (fun a b => a < b) 0 [50, 4294967306] ∧
    List.Chain (fun a b => b - a < 2 ^ 32) 0 [50, 4294967306] ∧
    (100 : Int) ≤ ((4294967306 - 0 : Nat) : Int) ∧
    pollAll 32 (SimpleTimeoutTemplate.construct (tickAt 32 0) 100)
      ([50, 4294967306].map (tickAt 32)) = [false, false] ∧
    pollAll 32 (SimpleTimeoutTemplate.construct (tickAt 32 0) 100)
      ([50, 4294967306].map (tickAt 32))
      ≠ [50, 4294967306].map (fun t => decide ((100 : Int) ≤ ((t - 0 : Nat) : Int))) := by
  refine ⟨by norm_num, by norm_num [FOREVER, LONG_MAX], by norm_num, by norm_num, by norm_num,
    by decide, by decide⟩

/-- Polls of an armed timer at non-decreasing true times, all at or after some
time `prev ≥ t0`: the answers are right as long as the first poll at or after
the deadline comes less than `2^w` ticks after construction. -/
theorem pollAll_correct_from (w t0 : Nat) (d : Int) (hd0 : 0 ≤ d) (hd : d < FOREVER w) :
    ∀ (ts : List Nat) (prev : Nat), t0 ≤ prev → List.Chain (fun a b => a ≤ b) prev ts →
      (∀ t, ts.find? (fun t => decide (d ≤ ((t - t0 : Nat) : Int))) = some t → t - t0 < 2 ^ w) →
      pollAll w (SimpleTimeoutTemplate.construct (tickAt w t0) d) (ts.map (tickAt w))
        = ts.map (fun t => decide (d ≤ ((t - t0 : Nat) : Int))) := by
  intro ts
  induction ts with
  | nil => intros; rfl
  | cons t rest ih =>
    intro prev hprev hchain hfirst
    obtain ⟨hpt, hrest⟩ := List.chain_cons.mp hchain
    have h0t : t0 ≤ t := le_trans hprev hpt
    by_cases hdt : d ≤ ((t - t0 : Nat) : Int)
    · have hlt : t - t0 < 2 ^ w := hfirst t (by simp [List.find?, hdt])
      have hres := expired_at_time w t0 t d hd0 hd h0t hlt
      rw [decide_eq_true hdt] at hres
      simp only [List.map_cons, pollAll]
      rw [expired_snd, hres, if_pos rfl, pollAll_of_disabled w _ _ (cancel_duration_neg _),
        decide_eq_true hdt, List.map_map]
      congr 1
      apply List.map_congr_left
      intro t' ht'
      have hle : t ≤ t' := List.Chain.rel hrest ht'
      have : ((t - t0 : Nat) : Int) ≤ ((t' - t0 : Nat) : Int) := by omega
      simp only [Function.comp]
      exact (decide_eq_true (le_trans hdt this)).symm
    · have hfl := forever_lt_pow w
      have hlt : t - t0 < 2 ^ w := by
        have : ((t - t0 : Nat) : Int) < 2 ^ w := by omega
        exact_mod_cast this
      have hres := expired_at_time w t0 t d hd0 hd h0t hlt
      rw [decide_eq_false hdt] at hres
      simp only [List.map_cons, pollAll]
      rw [expired_snd, hres, decide_eq_false hdt]
      simp only [Bool.false_eq_true, if_false]
      congr 1
      apply ih t h0t hrest
      intro t' ht'
      apply hfirst t'
      simp only [List.find?, decide_eq_false hdt]
      exact ht'

/-- C3, amended.  The expiry predicate is correct provided the clock has not
cycled all the way back to the start tick when expiry is first detected: for an
armed timer (`0 ≤ d < FOREVER`) constructed at true time `t0` and polled at
non-decreasing true times `t0 ≤ t1 ≤ t2 ≤ ...`, if the first poll with
`t_k - t0 ≥ d` (when there is one) has `t_k - t0 < 2^w`, then the `k`-th call of
`expired()`, which sees tick value `t_k mod 2^w`, returns `true` if and only if
`t_k - t0 ≥ d`.  Later polls may be any number of wraparounds away. -/
theorem expired_correct_until_detected (w t0 : Nat) (d : Int) (ts : List Nat)
    (hd0 : 0 ≤ d) (hd : d < FOREVER w)
    (hinc : List.Chain (fun a b => a ≤ b) t0 ts)
    (hfirst : ∀ t, ts.find? (fun t => decide (d ≤ ((t - t0 : Nat) : Int))) = some t →
      t - t0 < 2 ^ w) :
    pollAll w (SimpleTimeoutTemplate.construct (tickAt w t0) d) (ts.map (tickAt w))
      = ts.map (fun t => decide (d ≤ ((t - t0 : Nat) : Int))) :=
  pollAll_correct_from w t0 d hd0 hd ts t0 (le_refl t0) hinc hfirst

/-- C3 amended, on a 32-bit timer of duration 500 built 296 ticks before the
counter wraps: polls 100 and 400 ticks later (the second after the wrap) answer
`false`, the poll 600 ticks later answers `true`, and so does a poll more than
three full wraparounds after that. -/
theorem expired_correct_until_detected_witness :
    pollAll 32 (SimpleTimeoutTemplate.construct (tickAt 32 4294967000) 500)
        ([4294967100, 4294967400, 4294967600, 20000000000].map (tickAt 32))
      = [4294967100, 4294967400, 4294967600, 20000000000].map
          (fun t => decide ((500 : Int) ≤ ((t - 4294967000 : Nat) : Int))) :=
  expired_correct_until_detected 32 4294967000 500
    [4294967100, 4294967400, 4294967600, 20000000000]
    (by norm_num) (by norm_num [FOREVER, LONG_MAX]) (by norm_num)
    (by
      intro t ht
      have hfound : [4294967100, 4294967400, 4294967600, 20000000000].find?
          (fun t => decide ((500 : Int) ≤ ((t - 4294967000 : Nat) : Int))) = some 4294967600 := by
        decide
      rw [hfound] at ht
      cases ht
      norm_num)

/-! ## Forever, cancel and restart -/

/-- C4. Unbounded timers: with `duration = FOREVER`, `expired()` returns `false`
at every tick value and leaves the object unchanged, so any number of polls
return `false`; after `cancel()`, `expired()` returns `true` at every tick value
and leaves the object unchanged, so any number of polls return `true`, and
`getDuration()` still returns `FOREVER`. -/
theorem forever_expires_only_by_cancel (w s now : Nat) (nows : List Nat) :
    SimpleTimeoutTemplate.expired w { start := s, duration := FOREVER w } now
      = (false, { start := s, duration := FOREVER w }) ∧
    pollAll w { start := s, duration := FOREVER w } nows = nows.map (fun _ => false) ∧
    SimpleTimeoutTemplate.expired w
        (SimpleTimeoutTemplate.cancel { start := s, duration := FOREVER w }) now
      = (true, SimpleTimeoutTemplate.cancel { start := s, duration := FOREVER w }) ∧
    pollAll w (SimpleTimeoutTemplate.cancel { start := s, duration := FOREVER w }) nows
      = nows.map (fun _ => true) ∧
    (SimpleTimeoutTemplate.cancel { start := s, duration := FOREVER w }).getDuration
      = FOREVER w := by
  have hneg := cancel_duration_neg { start := s, duration := FOREVER w }
  refine ⟨expired_of_forever w _ now rfl, pollAll_of_forever w nows _ rfl,
    expired_of_disabled w _ now hneg, pollAll_of_disabled w nows _ hneg, ?_⟩
  rw [cancel_of_nonneg _ (forever_nonneg w)]
  have := forever_nonneg w
  simp only [SimpleTimeoutTemplate.getDuration, SimpleTimeoutTemplate.isDisabled,
    SimpleTimeoutTemplate.getInvertedDuration]
  rw [if_pos (by simp only [decide_eq_true_eq]; omega)]
  omega

/-- C5. Cancel takes effect immediately: from every state and at every tick
value, after `cancel()` the timer is disabled, the next `expired()` returns
`true`, and `start` is what it was. -/
theorem cancel_takes_effect (w : Nat) (t : SimpleTimeoutTemplate) (now : Nat) :
    t.cancel.isDisabled = true ∧ (t.cancel.expired w now).1 = true ∧
    t.cancel.start = t.start := by
  have hneg := cancel_duration_neg t
  refine ⟨?_, ?_, cancel_start t⟩
  · simp [SimpleTimeoutTemplate.isDisabled, hneg]
  · rw [expired_of_disabled w _ now hneg]

/-- Cancelling an armed or forever timer and restarting it without an argument
gives the timer with the same duration, started at the restart tick. -/
theorem cancel_restart_eq (s tnow : Nat) (d : Int) (hd0 : 0 ≤ d) :
    (SimpleTimeoutTemplate.cancel { start := s, duration := d }).restart tnow
      = { start := tnow, duration := d } := by
  rw [cancel_of_nonneg _ hd0]
  simp only [SimpleTimeoutTemplate.restart, SimpleTimeoutTemplate.restartWith,
    SimpleTimeoutTemplate.getDuration, SimpleTimeoutTemplate.isDisabled,
    SimpleTimeoutTemplate.getInvertedDuration]
  rw [if_pos (by simp only [decide_eq_true_eq]; omega)]
  congr 1
  omega

/-- C6. Cancel then restart with the same duration: for a timer with duration
`d ≥ 0` (armed or `FOREVER`), after `cancel()` and then `restart()` without an
argument at tick value `tnow`, the stored duration is `d`, `start` is `tnow`,
the timer is not disabled, and for `d < FOREVER` a poll at tick
`(tnow + e) mod 2^w` with `e < 2^w` returns `true` if and only if `e ≥ d`. -/
theorem cancel_restart_rearms (w s tnow e : Nat) (d : Int) (hd0 : 0 ≤ d)
    (ht : IsULong w tnow) (he : e < 2 ^ w) :
    ((SimpleTimeoutTemplate.cancel { start := s, duration := d }).restart tnow).duration = d ∧
    ((SimpleTimeoutTemplate.cancel { start := s, duration := d }).restart tnow).start = tnow ∧
    ((SimpleTimeoutTemplate.cancel { start := s, duration := d }).restart tnow).isDisabled
      = false ∧
    (d < FOREVER w →
      ((SimpleTimeoutTemplate.expired w
          ((SimpleTimeoutTemplate.cancel { start := s, duration := d }).restart tnow)
          ((tnow + e) % 2 ^ w)).1 = true ↔ d ≤ (e : Int))) := by
  rw [cancel_restart_eq s tnow d hd0]
  refine ⟨rfl, rfl, ?_, ?_⟩
  · simp only [SimpleTimeoutTemplate.isDisabled, decide_eq_false_iff_not]
    omega
  · intro hd
    rw [expired_armed_int w tnow e d ht hd0 hd he]
    simp

/-- C6 on a 32-bit timer of duration 50 started at tick 100, cancelled,
restarted at tick 4294967290 and polled 49 ticks later. -/
theorem cancel_restart_rearms_witness :
    ((SimpleTimeoutTemplate.cancel { start := 100, duration := 50 }).restart
      4294967290).duration = 50 ∧
    ((SimpleTimeoutTemplate.cancel { start := 100, duration := 50 }).restart
      4294967290).start = 4294967290 ∧
    ((SimpleTimeoutTemplate.cancel { start := 100, duration := 50 }).restart
      4294967290).isDisabled = false ∧
    ((50 : Int) < FOREVER 32 →
      ((SimpleTimeoutTemplate.expired 32
          ((SimpleTimeoutTemplate.cancel { start := 100, duration := 50 }).restart 4294967290)
          ((4294967290 + 49) % 2 ^ 32)).1 = true ↔ (50 : Int) ≤ ((49 : Nat) : Int))) :=
  cancel_restart_rearms 32 100 4294967290 49 50 (by norm_num) (by unfold IsULong; norm_num)
    (by norm_num)

/-- C7. `cancel()` is idempotent: from every state, cancelling twice leaves the
same object (both fields) as cancelling once, `getDuration()` is the same after
either, and it is the duration `getDuration()` reported before any cancel. -/
theorem cancel_idempotent (t : SimpleTimeoutTemplate) :
    t.cancel.cancel = t.cancel ∧ t.cancel.cancel.getDuration = t.cancel.getDuration ∧
    t.cancel.getDuration = t.getDuration := by
  have hcc : t.cancel.cancel = t.cancel := cancel_of_disabled _ (cancel_duration_neg t)
  refine ⟨hcc, by rw [hcc], ?_⟩
  rcases lt_or_le t.duration 0 with h | h
  · rw [cancel_of_disabled t h]
  · rw [cancel_of_nonneg t h]
    simp only [SimpleTimeoutTemplate.getDuration, SimpleTimeoutTemplate.isDisabled,
      SimpleTimeoutTemplate.getInvertedDuration]
    rw [if_pos (by simp only [decide_eq_true_eq]; omega),
      if_neg (by simp only [decide_eq_true_eq]; omega)]
    omega

/-- C8, as stated, fails: `-5` is a `long`, and a timer constructed with
duration `-5` reports `getDuration() = 4`, not `-5`. -/
theorem getDuration_construct_negative :
    IsLong 32 (-5) ∧ (SimpleTimeoutTemplate.construct 0 (-5)).getDuration = 4 ∧
    (SimpleTimeoutTemplate.construct 0 (-5)).getDuration ≠ -5 := by
  refine ⟨?_, by decide, by decide⟩
  unfold IsLong LONG_MIN LONG_MAX
  norm_num

/-- C8, amended.  For every duration `d ≥ 0` passed to the constructor (an armed
duration or `FOREVER`), `getDuration()` immediately after construction returns
exactly `d`. -/
theorem getDuration_construct (now : Nat) (d : Int) (hd0 : 0 ≤ d) :
    (SimpleTimeoutTemplate.construct now d).getDuration = d := by
  simp only [SimpleTimeoutTemplate.construct, SimpleTimeoutTemplate.getDuration,
    SimpleTimeoutTemplate.isDisabled]
  rw [if_neg (by simp only [decide_eq_true_eq]; omega)]

/-- C8 amended, at duration 50 and construction tick 100. -/
theorem getDuration_construct_witness :
    (SimpleTimeoutTemplate.construct 100 50).getDuration = 50 :=
  getDuration_construct 100 50 (by norm_num)

/-- C9. Immediate poll: a timer constructed with `0 ≤ d < FOREVER` when the
tick source reads `t`, and polled while it still reads `t`, reports expired if
and only if `d = 0`. -/
theorem immediate_poll (w t : Nat) (d : Int) (ht : IsULong w t) (hd0 : 0 ≤ d)
    (hd : d < FOREVER w) :
    ((SimpleTimeoutTemplate.construct t d).expired w t).1 = true ↔ d = 0 := by
  have h := expired_armed_int w t 0 d ht hd0 hd (by positivity)
  rw [Nat.add_zero, Nat.mod_eq_of_lt ht] at h
  unfold SimpleTimeoutTemplate.construct
  rw [h]
  simp only [decide_eq_true_eq, Nat.cast_zero]
  omega

/-- C9 at tick 100: duration 0 is expired at once. -/
theorem immediate_poll_witness :
    ((SimpleTimeoutTemplate.construct 100 0).expired 32 100).1 = true ↔ (0 : Int) = 0 :=
  immediate_poll 32 100 0 (by unfold IsULong; norm_num) (by norm_num)
    (by norm_num [FOREVER, LONG_MAX])

/-- With at least two bits, `FOREVER` is positive. -/
theorem forever_pos (w : Nat) (hw : 2 ≤ w) : 0 < FOREVER w := by
  unfold FOREVER LONG_MAX
  have h : (2 : Int) ^ 1 ≤ 2 ^ (w - 1) :=
    pow_le_pow_right₀ (by norm_num) (by omega)
  omega

/-- C10. Zero or negative durations are already expired: for every `long`
`d ≤ 0`, every construction tick and every tick value at poll time, the first
`expired()` on a timer constructed with `d` returns `true`; so does the first
`expired()` on a timer built with the default argument.  The width `w` of
`long` is at least 2 (C++ guarantees at least 32), which makes `FOREVER`
differ from 0. -/
theorem nonpositive_duration_expired (w s now : Nat) (d : Int) (hw : 2 ≤ w)
    (hs : IsULong w s) (hd : d ≤ 0) :
    ((SimpleTimeoutTemplate.construct s d).expired w now).1 = true ∧
    ((SimpleTimeoutTemplate.constructDefault s).expired w now).1 = true := by
  have hfp := forever_pos w hw
  have hzero : ((SimpleTimeoutTemplate.construct s 0).expired w now).1 = true := by
    have hne : ((0 : Int) == FOREVER w) = false := by
      simp only [beq_eq_false_iff_ne, ne_eq]; omega
    have hu : toUnsigned w 0 = 0 := by simp [toUnsigned]
    simp only [SimpleTimeoutTemplate.construct, SimpleTimeoutTemplate.expired,
      SimpleTimeoutTemplate.isForever, SimpleTimeoutTemplate.isDisabled,
      SimpleTimeoutTemplate.getEnd, hne, hu, Nat.add_zero, Nat.mod_eq_of_lt hs]
    by_cases hlt : now < s
    · simp [hlt]
    · simp [hlt, Nat.le_of_not_lt hlt]
  refine ⟨?_, hzero⟩
  rcases lt_or_eq_of_le hd with h | h
  · rw [expired_of_disabled w _ now (by simpa [SimpleTimeoutTemplate.construct] using h)]
  · rw [h]; exact hzero

/-- C10 at duration `-7`, constructed at tick 100 and polled at tick 3. -/
theorem nonpositive_duration_expired_witness :
    ((SimpleTimeoutTemplate.construct 100 (-7)).expired 32 3).1 = true ∧
    ((SimpleTimeoutTemplate.constructDefault 100).expired 32 3).1 = true :=
  nonpositive_duration_expired 32 100 3 (-7) (by norm_num) (by unfold IsULong; norm_num)
    (by norm_num)

/-! ## The logical duration, the end tick and restart -/

/-- The logical duration of a cancelled timer is the logical duration it had. -/
theorem getDuration_cancel (t : SimpleTimeoutTemplate) : t.cancel.getDuration = t.getDuration := by
  rcases lt_or_le t.duration 0 with h | h
  · rw [cancel_of_disabled t h]
  · rw [cancel_of_nonneg t h]
    simp only [SimpleTimeoutTemplate.getDuration, SimpleTimeoutTemplate.isDisabled,
      SimpleTimeoutTemplate.getInvertedDuration]
    rw [if_pos (by simp only [decide_eq_true_eq]; omega),
      if_neg (by simp only [decide_eq_true_eq]; omega)]
    omega

/-- On a timer that is not disabled the logical duration is the stored one. -/
theorem getDuration_of_nonneg (t : SimpleTimeoutTemplate) (h : 0 ≤ t.duration) :
    t.getDuration = t.duration := by
  simp only [SimpleTimeoutTemplate.getDuration, SimpleTimeoutTemplate.isDisabled]
  rw [if_neg (by simp only [decide_eq_true_eq]; omega)]

/-- The logical duration is never negative. -/
theorem getDuration_nonneg (t : SimpleTimeoutTemplate) : 0 ≤ t.getDuration := by
  simp only [SimpleTimeoutTemplate.getDuration, SimpleTimeoutTemplate.isDisabled,
    SimpleTimeoutTemplate.getInvertedDuration]
  split
  · rename_i h
    simp only [decide_eq_true_eq] at h
    omega
  · rename_i h
    simp only [decide_eq_true_eq] at h
    omega

/-- The unsigned sum `start + duration`, read as an integer, is the integer sum
modulo `2^w`. -/
theorem unsigned_sum_cast (w s : Nat) (d : Int) :
    (((s + toUnsigned w d) % 2 ^ w : Nat) : Int) = ((s : Int) + d) % 2 ^ w := by
  have hpos : (2 ^ w : Int) ≠ 0 := by positivity
  have hu : ((toUnsigned w d : Nat) : Int) = d % 2 ^ w := by
    unfold toUnsigned
    exact Int.toNat_of_nonneg (Int.emod_nonneg d hpos)
  push_cast
  rw [hu, Int.add_emod_emod]

/-- C11. `getDuration()` reports the logical duration independently of the
latch: for every timer state (in particular every state with `duration ≥ 0`,
armed or `FOREVER`) and every tick value, `getDuration()` after `cancel()` and
`getDuration()` after `expired()`, whichever answer it gave, both equal
`getDuration()` before the call. -/
theorem getDuration_independent_of_latch (w : Nat) (t : SimpleTimeoutTemplate) (now : Nat) :
    t.cancel.getDuration = t.getDuration ∧
    (t.expired w now).2.getDuration = t.getDuration := by
  refine ⟨getDuration_cancel t, ?_⟩
  rw [expired_snd]
  split
  · exact getDuration_cancel t
  · rfl

/-- C12. The source has `getEnd()`: for every timer state it returns `start`
when the timer is disabled (`duration < 0`) or unbounded (`duration = FOREVER`),
and otherwise `(start + duration) mod 2^w`.  A timer constructed at tick 100 with
duration 50 has `getEnd() = 150`, and one started six ticks below `2^32` with
duration 50 has `getEnd() = 44`, below its `getStart()`. -/
theorem getEnd_eq (w : Nat) (t : SimpleTimeoutTemplate) :
    ((t.getEnd w : Nat) : Int)
      = (if t.duration < 0 ∨ t.duration = FOREVER w then (t.start : Int)
         else ((t.start : Int) + t.duration) % 2 ^ w) ∧
    (SimpleTimeoutTemplate.construct 100 50).getEnd 32 = 150 ∧
    SimpleTimeoutTemplate.getEnd 32 { start := 4294967290, duration := 50 } = 44 ∧
    SimpleTimeoutTemplate.getEnd 32 { start := 4294967290, duration := 50 }
      < SimpleTimeoutTemplate.getStart { start := 4294967290, duration := 50 } := by
  refine ⟨?_, by decide, by decide, by decide⟩
  unfold SimpleTimeoutTemplate.getEnd
  by_cases h : t.duration < 0 ∨ t.duration = FOREVER w
  · rw [if_pos h, if_pos]
    simpa [SimpleTimeoutTemplate.isDisabled, SimpleTimeoutTemplate.isForever] using h
  · rw [if_neg h, if_neg]
    · exact unsigned_sum_cast w t.start t.duration
    · simpa [SimpleTimeoutTemplate.isDisabled, SimpleTimeoutTemplate.isForever] using h

/-- C13. `restart()` always escapes the disabled state: for every timer state
and every tick value `now`, after `restart()` without an argument the timer is
not disabled, `getDuration()` is what it was before the call and `getStart()`
is `now`; after `restart(n)` the stored duration is `n` and `getStart()` is
`now`. -/
theorem restart_escapes_disabled (t : SimpleTimeoutTemplate) (now : Nat) (n : Int) :
    (t.restart now).isDisabled = false ∧
    (t.restart now).getDuration = t.getDuration ∧
    (t.restart now).getStart = now ∧
    (t.restartWith n now).duration = n ∧
    (t.restartWith n now).getStart = now := by
  have hnn := getDuration_nonneg t
  have hnd : decide (t.getDuration < 0) = false := by
    simp only [decide_eq_false_iff_not]; omega
  refine ⟨?_, ?_, rfl, rfl, rfl⟩
  · simp only [SimpleTimeoutTemplate.restart, SimpleTimeoutTemplate.restartWith,
      SimpleTimeoutTemplate.isDisabled, hnd]
  · exact getDuration_of_nonneg { start := now, duration := t.getDuration } hnn

/-! ## The disabled-state encoding -/

/-- The encoding of a `long` is a `long`: `-1 - d` does not overflow. -/
theorem isLong_inverted (w s : Nat) (d : Int) (hd : IsLong w d) :
    IsLong w (SimpleTimeoutTemplate.getInvertedDuration { start := s, duration := d }) := by
  unfold IsLong LONG_MIN LONG_MAX at *
  simp only [SimpleTimeoutTemplate.getInvertedDuration]
  omega

/-- Applying the encoding twice gives the value back. -/
theorem inverted_inverted (s : Nat) (d : Int) :
    SimpleTimeoutTemplate.getInvertedDuration
      { start := s, duration :=
          SimpleTimeoutTemplate.getInvertedDuration { start := s, duration := d } } = d := by
  simp only [SimpleTimeoutTemplate.getInvertedDuration]
  omega

/-- C14. The disabled-state encoding `d ↦ -1 - d` (`getInvertedDuration`) is an
involution: applied twice to any value `d` it yields `d`; it is therefore a
bijection of the `w`-bit signed duration type onto itself; and in particular
it recovers `0`, `FOREVER` and the minimum representable value. -/
theorem getInvertedDuration_involution (w s : Nat) (d : Int) :
    SimpleTimeoutTemplate.getInvertedDuration
      { start := s, duration :=
          SimpleTimeoutTemplate.getInvertedDuration { start := s, duration := d } } = d ∧
    Set.BijOn (fun x => SimpleTimeoutTemplate.getInvertedDuration { start := s, duration := x })
      {x | IsLong w x} {x | IsLong w x} ∧
    SimpleTimeoutTemplate.getInvertedDuration
      { start := s, duration :=
          SimpleTimeoutTemplate.getInvertedDuration { start := s, duration := 0 } } = 0 ∧
    SimpleTimeoutTemplate.getInvertedDuration
      { start := s, duration :=
          SimpleTimeoutTemplate.getInvertedDuration { start := s, duration := FOREVER w } }
      = FOREVER w ∧
    SimpleTimeoutTemplate.getInvertedDuration
      { start := s, duration :=
          SimpleTimeoutTemplate.getInvertedDuration { start := s, duration := LONG_MIN w } }
      = LONG_MIN w := by
  refine ⟨inverted_inverted s d, ⟨?_, ?_, ?_⟩, inverted_inverted s 0,
    inverted_inverted s (FOREVER w), inverted_inverted s (LONG_MIN w)⟩
  · intro x hx
    exact isLong_inverted w s x hx
  · intro x _ y _ hxy
    simp only [SimpleTimeoutTemplate.getInvertedDuration] at hxy
    omega
  · intro y hy
    exact ⟨SimpleTimeoutTemplate.getInvertedDuration { start := s, duration := y },
      isLong_inverted w s y hy, inverted_inverted s y⟩

/-! ## What `expired` leaves behind -/

/-- C15. `expired()` reports exactly the latch state it leaves behind: for every
timer state and every tick value, the returned boolean equals `isDisabled()`
evaluated after the call; when it is `false` the object (start and duration)
is unchanged; and `start` is unchanged in every case. -/
theorem expired_reports_latch (w : Nat) (t : SimpleTimeoutTemplate) (now : Nat) :
    (t.expired w now).1 = (t.expired w now).2.isDisabled ∧
    ((t.expired w now).1 = false → (t.expired w now).2 = t) ∧
    (t.expired w now).2.start = t.start := by
  have hsnd := expired_snd w t now
  cases hres : (t.expired w now).1
  · rw [hres] at hsnd
    simp only [Bool.false_eq_true, if_false] at hsnd
    have hnn : ¬ t.duration < 0 := by
      intro hneg
      rw [expired_of_disabled w t now hneg] at hres
      exact Bool.noConfusion hres
    refine ⟨?_, fun _ => hsnd, by rw [hsnd]⟩
    rw [hsnd]
    simp [SimpleTimeoutTemplate.isDisabled, hnn]
  · rw [hres] at hsnd
    simp only [if_true] at hsnd
    refine ⟨?_, fun h => Bool.noConfusion h, by rw [hsnd]; exact cancel_start t⟩
    rw [hsnd]
    simp [SimpleTimeoutTemplate.isDisabled, cancel_duration_neg t]

/-- C15 on the timer started at tick 100 with duration 50, polled at tick 149:
the answer is `false`, the timer is not disabled and nothing has changed. -/
theorem expired_reports_latch_witness :
    (SimpleTimeoutTemplate.expired 32 { start := 100, duration := 50 } 149).1
      = (SimpleTimeoutTemplate.expired 32 { start := 100, duration := 50 } 149).2.isDisabled ∧
    (SimpleTimeoutTemplate.expired 32 { start := 100, duration := 50 } 149).2
      = { start := 100, duration := 50 } ∧
    (SimpleTimeoutTemplate.expired 32 { start := 100, duration := 50 } 149).2.start = 100 :=
  ⟨(expired_reports_latch 32 { start := 100, duration := 50 } 149).1,
   (expired_reports_latch 32 { start := 100, duration := 50 } 149).2.1 (by decide),
   (expired_reports_latch 32 { start := 100, duration := 50 } 149).2.2⟩

/-- C16. Cancellation is indistinguishable from natural expiry: for every timer
state and every tick value at which `expired()` returns `true`, the object it
leaves (start and duration) is the object `cancel()` would have produced from
the same state. -/
theorem expired_true_eq_cancel (w : Nat) (t : SimpleTimeoutTemplate) (now : Nat)
    (h : (t.expired w now).1 = true) : (t.expired w now).2 = t.cancel := by
  rw [expired_snd, h]
  rfl

/-- C16 on the timer started at tick 100 with duration 50, polled at tick 150. -/
theorem expired_true_eq_cancel_witness :
    (SimpleTimeoutTemplate.expired 32 { start := 100, duration := 50 } 150).2
      = SimpleTimeoutTemplate.cancel { start := 100, duration := 50 } :=
  expired_true_eq_cancel 32 { start := 100, duration := 50 } 150 (by decide)

/-- C17. The encoding never overflows and flips the state sign: for every `long`
`d`, `-1 - d` is a `long`; `FOREVER` maps to the minimum value and the minimum
value to `FOREVER`; `-1 - d < 0` if and only if `d ≥ 0`; so `cancel()` turns
every armed or unbounded duration `d ≥ 0` into the disabled duration `-1 - d`,
and two non-negative durations with the same encoding are equal. -/
theorem encoding_in_range_flips_sign (w s : Nat) (d d' : Int) (hd : IsLong w d) :
    IsLong w (SimpleTimeoutTemplate.getInvertedDuration { start := s, duration := d }) ∧
    SimpleTimeoutTemplate.getInvertedDuration { start := s, duration := FOREVER w }
      = LONG_MIN w ∧
    SimpleTimeoutTemplate.getInvertedDuration { start := s, duration := LONG_MIN w }
      = FOREVER w ∧
    (SimpleTimeoutTemplate.getInvertedDuration { start := s, duration := d } < 0 ↔ 0 ≤ d) ∧
    (0 ≤ d →
      (SimpleTimeoutTemplate.cancel { start := s, duration := d }).isDisabled = true ∧
      (SimpleTimeoutTemplate.cancel { start := s, duration := d }).duration = -1 - d) ∧
    (0 ≤ d → 0 ≤ d' →
      (SimpleTimeoutTemplate.cancel { start := s, duration := d }).duration
        = (SimpleTimeoutTemplate.cancel { start := s, duration := d' }).duration →
      d = d') := by
  refine ⟨isLong_inverted w s d hd, ?_, ?_, ?_, ?_, ?_⟩
  · simp only [SimpleTimeoutTemplate.getInvertedDuration, FOREVER, LONG_MAX, LONG_MIN]
    omega
  · simp only [SimpleTimeoutTemplate.getInvertedDuration, FOREVER, LONG_MAX, LONG_MIN]
    omega
  · simp only [SimpleTimeoutTemplate.getInvertedDuration]
    omega
  · intro h0
    rw [cancel_of_nonneg _ h0]
    refine ⟨?_, rfl⟩
    simp only [SimpleTimeoutTemplate.isDisabled, decide_eq_true_eq]
    omega
  · intro h0 h0' heq
    rw [cancel_of_nonneg _ h0, cancel_of_nonneg _ h0'] at heq
    simp only at heq
    omega

/-- C17 at 32 bits, for `d = d' = FOREVER = 2147483647`. -/
theorem encoding_in_range_flips_sign_witness :
    IsLong 32 (SimpleTimeoutTemplate.getInvertedDuration
      { start := 0, duration := 2147483647 }) ∧
    SimpleTimeoutTemplate.getInvertedDuration { start := 0, duration := FOREVER 32 }
      = LONG_MIN 32 ∧
    SimpleTimeoutTemplate.getInvertedDuration { start := 0, duration := LONG_MIN 32 }
      = FOREVER 32 ∧
    (SimpleTimeoutTemplate.getInvertedDuration { start := 0, duration := 2147483647 } < 0
      ↔ (0 : Int) ≤ 2147483647) ∧
    ((0 : Int) ≤ 2147483647 →
      (SimpleTimeoutTemplate.cancel { start := 0, duration := 2147483647 }).isDisabled = true ∧
      (SimpleTimeoutTemplate.cancel { start := 0, duration := 2147483647 }).duration
        = -1 - 2147483647) ∧
    ((0 : Int) ≤ 2147483647 → (0 : Int) ≤ 2147483647 →
      (SimpleTimeoutTemplate.cancel { start := 0, duration := 2147483647 }).duration
        = (SimpleTimeoutTemplate.cancel { start := 0, duration := 2147483647 }).duration →
      (2147483647 : Int) = 2147483647) :=
  encoding_in_range_flips_sign 32 0 2147483647 2147483647
    (by unfold IsLong LONG_MIN LONG_MAX; norm_num)

end SimpleTimeout
